import Mathlib

/-!
Shallow embedding of `gym_envs/envs/tasks/grasp.py` (class `Grasp`):
scene-independent task logic of a robotic grasping environment.
Coordinates are rational numbers; euclidean distances live in `ℝ`.
-/

namespace Grasp

/-- A 3D point, as the source's 3-element numpy arrays. -/
def Point3 : Type := Fin 3 → ℚ

instance : DecidableEq Point3 := fun a b =>
  decidable_of_iff (∀ i, a i = b i) ⟨funext, fun h i => h ▸ rfl⟩

/-- Modelled from the spec: `gym_envs.utils.distance` (not under `src/`) is the
euclidean distance between two points. -/
noncomputable def distance (a b : Point3) : ℝ :=
  Real.sqrt (((a 0 - b 0) ^ 2 + (a 1 - b 1) ^ 2 + (a 2 - b 2) ^ 2 : ℚ) : ℝ)

/-- Immutable task configuration, the fields `Grasp.__init__` stores on `self`
(the simulator handle, robot and collision callables are external collaborators
and carry no task logic). -/
structure Config where
  rewardType : String
  distanceThreshold : ℚ
  objectSize : ℚ
  goalRangeLow : Point3
  goalRangeHigh : Point3
  objRangeLow : Point3
  objRangeHigh : Point3

/-- `Grasp.__init__` (grasp.py lines 11-32): builds the configuration from the
constructor arguments; `object_size` is hardcoded to 0.04 and the z-component of
the object sampling range is fixed to [0, 0]. -/
def mkConfig (reward_type : String)
    (distance_threshold goal_xy_range goal_z_range obj_xy_range : ℚ) : Config where
  rewardType := reward_type
  distanceThreshold := distance_threshold
  objectSize := 0.04
  goalRangeLow := ![-goal_xy_range / 2, -goal_xy_range / 2, 0]
  goalRangeHigh := ![goal_xy_range / 2, goal_xy_range / 2, goal_z_range]
  objRangeLow := ![-obj_xy_range / 2, -obj_xy_range / 2, 0]
  objRangeHigh := ![obj_xy_range / 2, obj_xy_range / 2, 0]

/-- Modelled from the spec: the task-owned random generator `self.np_random`
(provided by the base `Task` class, not under `src/`). Its seed determines the
whole output stream, so the generator is a stream of draws plus a cursor. -/
structure RNG where
  stream : Nat → ℚ
  cursor : Nat

/-- Modelled from the spec: `np_random.uniform(low, high)` on 3-vectors —
consumes three unit draws and maps them affinely into [low, high]. -/
def uniform3 (low high : Point3) (g : RNG) : Point3 × RNG :=
  (fun i => low i + g.stream (g.cursor + (i : ℕ)) * (high i - low i),
   ⟨g.stream, g.cursor + 3⟩)

/-- Modelled from the spec: `np_random.random()` — one unit draw. -/
def randomUnit (g : RNG) : ℚ × RNG :=
  (g.stream g.cursor, ⟨g.stream, g.cursor + 1⟩)

/-- `Grasp._sample_goal` (grasp.py lines 88-95): base point
(0, 0.2, 0.15 + object_size/2) plus uniform noise; the noise z-component is
zeroed when a subsequent unit draw falls below 0.3. -/
def sampleGoal (cfg : Config) (g : RNG) : Point3 × RNG :=
  let base : Point3 := ![0, 0.2, 0.15 + cfg.objectSize / 2]
  let u := uniform3 cfg.goalRangeLow cfg.goalRangeHigh g
  let r := randomUnit u.2
  let noise : Point3 := if r.1 < 0.3 then Function.update u.1 2 0 else u.1
  (fun i => base i + noise i, r.2)

/-- `Grasp._sample_object` (grasp.py lines 97-102): base point
(0, -0.2, object_size/2) plus uniform noise from the object range. -/
def sampleObject (cfg : Config) (g : RNG) : Point3 × RNG :=
  let base : Point3 := ![0, -0.2, cfg.objectSize / 2]
  let u := uniform3 cfg.objRangeLow cfg.objRangeHigh g
  (fun i => base i + u.1 i, u.2)

/-- Per-step auxiliary info record supplied by the controller: gripper tip
position, grasp-action flag and collision flag (grasp.py lines 113-120). -/
structure Info where
  pos_tcp : Point3
  grasp : Bool
  collisions : Bool

/-- A raw info bundle as a partial record: any of the expected fields may be
absent, as a Python dict may lack a key (grasp.py lines 113-120). -/
structure RawInfo where
  pos_tcp : Option Point3
  grasp : Option Bool
  collisions : Option Bool

/-- Field extraction from the info bundle performed at the top of
`Grasp.compute_reward` (grasp.py lines 113-120): a missing key raises a
`KeyError` which the bare scalar-path lookup propagates to the caller. -/
def extractInfo (r : RawInfo) : Except String Info :=
  match r.pos_tcp with
  | none => Except.error "KeyError: pos_tcp"
  | some p =>
    match r.grasp with
    | none => Except.error "KeyError: grasp"
    | some gr =>
      match r.collisions with
      | none => Except.error "KeyError: collisions"
      | some c => Except.ok ⟨p, gr, c⟩

/-- `Grasp.check_position_for_grasp` (grasp.py lines 165-172): per-axis
tolerance test between the gripper tip and the object, 0.02 on x and y,
0.01 on z. -/
def checkPositionForGrasp (pos_tcp pos_obj : Point3) : Bool :=
  decide (|pos_tcp 0 - pos_obj 0| < 0.02)
    && decide (|pos_tcp 1 - pos_obj 1| < 0.02)
    && decide (|pos_tcp 2 - pos_obj 2| < 0.01)

/-- `Grasp.compute_reward` (grasp.py lines 111-153) on one sample: the dense
shaped reward. `cfg` is the instance configuration (`self`); the body reads
none of its fields, and the extracted `grasp` flag is unused, as in the
source. -/
noncomputable def computeReward (cfg : Config) (achieved desired : Point3)
    (i : Info) : ℝ :=
  let reach_reward := distance i.pos_tcp achieved
  let position_for_grasp := checkPositionForGrasp i.pos_tcp achieved
  let grasp_reward : ℤ := if position_for_grasp && i.collisions then 1 else 0
  let penalty_for_pushing : ℤ :=
    if i.collisions && !position_for_grasp then 1 else 0
  let obj_to_target := distance achieved desired ;
  - reach_reward + (if position_for_grasp then (1 : ℝ) else 0)
    + 5 * (grasp_reward : ℝ) - 10 * obj_to_target
    - 2 * (penalty_for_pushing : ℝ)

/-- `Grasp.check_position_for_grasp` (grasp.py lines 165-172) applied to a
batch: `pos_tcp.T` turns the (n,3) sample array into three coordinate rows,
each compared elementwise against the broadcast scalar coordinate of
`pos_obj`, and the three boolean rows are combined with elementwise `&`. -/
def checkPositionForGraspBatch (pos_tcp : List Point3) (pos_obj : Point3) :
    List Bool :=
  let row0 := pos_tcp.map (fun p => p 0)
  let row1 := pos_tcp.map (fun p => p 1)
  let row2 := pos_tcp.map (fun p => p 2)
  let c0 := row0.map (fun x => decide (|x - pos_obj 0| < 0.02))
  let c1 := row1.map (fun x => decide (|x - pos_obj 1| < 0.02))
  let c2 := row2.map (fun x => decide (|x - pos_obj 2| < 0.01))
  List.zipWith (fun x y => x && y) (List.zipWith (fun x y => x && y) c0 c1) c2

/-- `Grasp.compute_reward` on a batch (list) of per-sample info records: the
try-branch extraction builds the field arrays (grasp.py lines 114-116), and
the numpy pipeline of lines 122-153 then acts elementwise along the sample
axis — per-row euclidean norm for `reach_reward`, the transposed tolerance
test, elementwise `&` for `grasp_reward` and `penalty_for_pushing`, and the
linear combination with the scalars `obj_to_target` and the coefficients
broadcast across samples. The extracted `grasp` array is unused, as in the
source. -/
noncomputable def computeRewardBatch (cfg : Config) (achieved desired : Point3)
    (infos : List Info) : List ℝ :=
  let pos_tcp := infos.map Info.pos_tcp
  let collisions := infos.map Info.collisions
  let reach_reward := pos_tcp.map (fun p => distance p achieved)
  let position_for_grasp := checkPositionForGraspBatch pos_tcp achieved
  let grasp_reward := List.zipWith
    (fun b c => if b && c then (1 : ℤ) else 0) position_for_grasp collisions
  let penalty_for_pushing := List.zipWith
    (fun c b => if c && !b then (1 : ℤ) else 0) collisions position_for_grasp
  let obj_to_target := distance achieved desired
  let t1 := List.zipWith
    (fun r (b : Bool) => - r + (if b then (1 : ℝ) else 0))
    reach_reward position_for_grasp
  let t2 := List.zipWith (fun t (g : ℤ) => t + 5 * (g : ℝ)) t1 grasp_reward
  let t3 := t2.map (fun t => t - 10 * obj_to_target)
  List.zipWith (fun t (p : ℤ) => t - 2 * (p : ℝ)) t3 penalty_for_pushing

/-- `Grasp.compute_reward` called on a raw bundle: the field extraction may
fail and its error propagates (grasp.py lines 113-120). -/
noncomputable def computeRewardChecked (cfg : Config) (achieved desired : Point3)
    (r : RawInfo) : Except String ℝ :=
  (extractInfo r).map (computeReward cfg achieved desired)

/-- `Grasp.is_success` (grasp.py lines 104-106): strict comparison of the
achieved-to-desired distance against the threshold. -/
noncomputable def isSuccess (cfg : Config) (achieved desired : Point3) : Prop :=
  distance achieved desired < (cfg.distanceThreshold : ℝ)

/-- The simulator scene state the task reads and writes: pose and velocities of
the "object" body and pose of the "target" marker. -/
structure SimState where
  objectPos : Point3
  objectOrn : Fin 4 → ℚ
  objectVel : Point3
  objectAngVel : Point3
  targetPos : Point3
  targetOrn : Fin 4 → ℚ

/-- Mutable episode state owned by the task instance together with its
configuration, generator and the simulator scene. -/
structure TaskState where
  cfg : Config
  goal : Option Point3
  initialHeight : ℚ
  rng : RNG
  sim : SimState

/-- `Grasp._create_scene` (grasp.py lines 36-56) restricted to the poses the
task logic later reads: object at (0, -0.2, object_size/2), target marker at
(0, 0.2, 0.1). -/
def createScene (cfg : Config) (s : SimState) : SimState :=
  { s with objectPos := ![0, -0.2, cfg.objectSize / 2]
           targetPos := ![0, 0.2, 0.1] }

/-- `Grasp.__init__` (grasp.py lines 11-34): stores the configuration, sets
`initial_height` to 0 and builds the scene. Modelled from the spec: the base
`Task` class (not under `src/`) leaves `goal` unset before the first reset, so
the fresh state carries no goal. -/
def mkTask (cfg : Config) (g : RNG) (s : SimState) : TaskState where
  cfg := cfg
  goal := none
  initialHeight := 0
  rng := g
  sim := createScene cfg s

/-- `Grasp.reset` (grasp.py lines 81-86): samples a goal and an object
position, writes both poses into the simulator with the identity quaternion
(0,0,0,1), and records the object's post-placement z as `initial_height`. -/
def reset (s : TaskState) : TaskState :=
  let sg := sampleGoal s.cfg s.rng
  let so := sampleObject s.cfg sg.2
  let sim1 : SimState := { s.sim with targetPos := sg.1, targetOrn := ![0, 0, 0, 1] }
  let sim2 : SimState := { sim1 with objectPos := so.1, objectOrn := ![0, 0, 0, 1] }
  { s with goal := some sg.1
           initialHeight := sim2.objectPos 2
           rng := so.2
           sim := sim2 }

/-- `Grasp.get_obs` (grasp.py lines 58-65): position (3), rotation (4), linear
velocity (3), angular velocity (3) of the object, concatenated. -/
def getObs (s : TaskState) : Fin 13 → ℚ :=
  Fin.append (Fin.append (Fin.append s.sim.objectPos s.sim.objectOrn)
    s.sim.objectVel) s.sim.objectAngVel

/-- `Grasp.get_achieved_goal` (grasp.py lines 67-71): the object position. -/
def getAchievedGoal (s : TaskState) : Point3 :=
  s.sim.objectPos

/-- `Grasp.get_desired_goal` (grasp.py lines 73-79): a copy of the episode
goal, or the documented precondition error when no goal is set. -/
def getDesiredGoal (s : TaskState) : Except String Point3 :=
  match s.goal with
  | none => Except.error "No goal yet, call reset() first"
  | some g => Except.ok g

/-- `get_obs` as a state transformer: the method only reads. -/
def getObsOp (s : TaskState) : (Fin 13 → ℚ) × TaskState :=
  (getObs s, s)

/-- `get_achieved_goal` as a state transformer: the method only reads. -/
def getAchievedGoalOp (s : TaskState) : Point3 × TaskState :=
  (getAchievedGoal s, s)

/-- `get_desired_goal` as a state transformer: the method only reads. -/
def getDesiredGoalOp (s : TaskState) : Except String Point3 × TaskState :=
  (getDesiredGoal s, s)

/-- `is_success` as a state transformer: the method only reads. -/
noncomputable def isSuccessOp (s : TaskState) (achieved desired : Point3) :
    Prop × TaskState :=
  (isSuccess s.cfg achieved desired, s)

/-- `compute_reward` as a state transformer: the method only reads. -/
noncomputable def computeRewardOp (s : TaskState) (achieved desired : Point3)
    (i : Info) : ℝ × TaskState :=
  (computeReward s.cfg achieved desired i, s)

/-- The (goal, initial object position) pairs produced by `n` successive
resets, threading the generator as `Grasp.reset` does. -/
def resetDraws (cfg : Config) : RNG → Nat → List (Point3 × Point3)
  | _, 0 => []
  | g, n + 1 =>
    let sg := sampleGoal cfg g
    let so := sampleObject cfg sg.2
    (sg.1, so.1) :: resetDraws cfg so.2 n

/-- C1: for every achieved/desired pair and info record, `compute_reward`
returns exactly `-reach_reward + position_for_grasp + 5*grasp_reward -
10*obj_to_target - 2*penalty_for_pushing`, with `reach_reward` the tcp-object
distance, `grasp_reward = 1` iff in position and colliding,
`penalty_for_pushing = 1` iff colliding and not in position, and
`obj_to_target` the achieved-desired distance; at pos_tcp=(0,0,0),
achieved=(0,0,0), desired=(1,0,0), collisions=true the result is -4. -/
theorem computeReward_formula :
    (∀ (cfg : Config) (achieved desired : Point3) (i : Info),
      computeReward cfg achieved desired i =
        - distance i.pos_tcp achieved
          + (if checkPositionForGrasp i.pos_tcp achieved = true then (1 : ℝ) else 0)
          + 5 * (if checkPositionForGrasp i.pos_tcp achieved = true
                    ∧ i.collisions = true then (1 : ℝ) else 0)
          - 10 * distance achieved desired
          - 2 * (if i.collisions = true
                    ∧ checkPositionForGrasp i.pos_tcp achieved = false
                 then (1 : ℝ) else 0))
    ∧ computeReward (mkConfig "sparse" 0.05 0.1 0 0.1) ![0, 0, 0] ![1, 0, 0]
        ⟨![0, 0, 0], false, true⟩ = -4 := by
  constructor
  · intro cfg a d i
    cases hb : checkPositionForGrasp i.pos_tcp a <;> cases hc : i.collisions <;>
      simp [computeReward, hb, hc]
  · norm_num [computeReward, checkPositionForGrasp, distance]

/-- C2: `is_success` holds iff the achieved-to-desired euclidean distance is
strictly below the threshold; at a distance exactly equal to the threshold the
result is false. -/
theorem isSuccess_strict :
    (∀ (cfg : Config) (achieved desired : Point3),
      isSuccess cfg achieved desired ↔
        distance achieved desired < (cfg.distanceThreshold : ℝ))
    ∧ (∀ (cfg : Config) (achieved desired : Point3),
      distance achieved desired = (cfg.distanceThreshold : ℝ) →
        ¬ isSuccess cfg achieved desired) := by
  refine ⟨fun _ _ _ => Iff.rfl, fun cfg a d h => ?_⟩
  simp [isSuccess, h]

/-- Witness for C2: at threshold 0.05, achieved (0,0,0) and desired
(0.05,0,0) are exactly at threshold distance, and success is false. -/
theorem isSuccess_strict_witness :
    ¬ isSuccess (mkConfig "sparse" 0.05 0.1 0 0.1) ![0, 0, 0] ![0.05, 0, 0] := by
  refine isSuccess_strict.2 _ _ _ ?_
  have h1 : (((![0, 0, 0] : Point3) 0 - (![0.05, 0, 0] : Point3) 0) ^ 2
      + ((![0, 0, 0] : Point3) 1 - (![0.05, 0, 0] : Point3) 1) ^ 2
      + ((![0, 0, 0] : Point3) 2 - (![0.05, 0, 0] : Point3) 2) ^ 2 : ℚ)
      = 1 / 400 := by
    norm_num
  unfold distance
  rw [h1, show ((1 / 400 : ℚ) : ℝ) = (1 / 20 : ℝ) ^ 2 by norm_num,
    Real.sqrt_sq (by norm_num)]
  norm_num [mkConfig]

/-- C3: `check_position_for_grasp` holds iff the tcp-object offset is within
0.02 on x, 0.02 on y and 0.01 on z, and its value depends only on the two
positions — two info records with equal `pos_tcp` give the same value no
matter their `collisions` flags. -/
theorem checkPositionForGrasp_spec :
    ∀ (pos_tcp achieved : Point3),
      (checkPositionForGrasp pos_tcp achieved = true ↔
        |pos_tcp 0 - achieved 0| < 0.02 ∧ |pos_tcp 1 - achieved 1| < 0.02
          ∧ |pos_tcp 2 - achieved 2| < 0.01)
      ∧ (∀ (i j : Info), i.pos_tcp = j.pos_tcp →
          checkPositionForGrasp i.pos_tcp achieved
            = checkPositionForGrasp j.pos_tcp achieved) := by
  intro p a
  refine ⟨?_, fun i j h => by rw [h]⟩
  simp [checkPositionForGrasp, and_assoc]

/-- Witness for C3: two info records sharing a tcp position but with opposite
collision flags give the same grasp-position test value. -/
theorem checkPositionForGrasp_spec_witness :
    checkPositionForGrasp (Info.mk ![0, 0, 0] false true).pos_tcp ![0, 0, 0]
      = checkPositionForGrasp (Info.mk ![0, 0, 0] false false).pos_tcp ![0, 0, 0] :=
  (checkPositionForGrasp_spec ![0, 0, 0] ![0, 0, 0]).2 _ _ rfl

/-- C4: on a freshly constructed task, `get_desired_goal` fails with the
documented "no goal set" precondition error; after a reset it returns the
episode's sampled goal. -/
theorem getDesiredGoal_precondition :
    (∀ (cfg : Config) (g : RNG) (s : SimState),
      getDesiredGoal (mkTask cfg g s)
        = Except.error "No goal yet, call reset() first")
    ∧ (∀ (s : TaskState),
      getDesiredGoal (reset s) = Except.ok (sampleGoal s.cfg s.rng).1) :=
  ⟨fun _ _ _ => rfl, fun _ => rfl⟩

/-- The vectorized batch pipeline agrees sample by sample with the scalar
path: on any batch it produces exactly the per-record scalar rewards. -/
theorem computeRewardBatch_eq_map (cfg : Config) (achieved desired : Point3)
    (infos : List Info) :
    computeRewardBatch cfg achieved desired infos
      = infos.map (computeReward cfg achieved desired) := by
  induction infos with
  | nil => rfl
  | cons r rs ih =>
    simp only [computeRewardBatch, checkPositionForGraspBatch, List.map_cons,
      List.zipWith_cons_cons] at ih ⊢
    rw [ih]
    rfl

/-- C5: a single info record passed as a length-1 batch yields the same reward
value as the same record passed bare. -/
theorem computeReward_batch_scalar :
    ∀ (cfg : Config) (achieved desired : Point3) (r : Info),
      computeRewardBatch cfg achieved desired [r]
        = [computeReward cfg achieved desired r] :=
  fun cfg achieved desired r => computeRewardBatch_eq_map cfg achieved desired [r]

/-- C6: an info bundle missing any of the expected fields makes
`compute_reward` propagate an error instead of returning a reward. -/
theorem computeReward_missing_field :
    ∀ (cfg : Config) (achieved desired : Point3) (r : RawInfo),
      r.pos_tcp = none ∨ r.grasp = none ∨ r.collisions = none →
      ∃ e, computeRewardChecked cfg achieved desired r = Except.error e := by
  intro cfg a d r h
  obtain ⟨p, gr, c⟩ := r
  cases p <;> cases gr <;> cases c <;>
    simp_all [computeRewardChecked, extractInfo, Except.map]

/-- Witness for C6: a bundle missing `pos_tcp` produces an error. -/
theorem computeReward_missing_field_witness :
    ∃ e, computeRewardChecked (mkConfig "sparse" 0.05 0.1 0 0.1) ![0, 0, 0]
        ![0, 0, 0] ⟨none, some false, some true⟩ = Except.error e :=
  computeReward_missing_field _ ![0, 0, 0] ![0, 0, 0] _ (Or.inl rfl)

/-- C7: for every configuration built by the constructor and every generator
state, the sampled initial object position has z exactly the object's
half-size, the z-range of the object sampling bounds being fixed to [0,0]. -/
theorem sampleObject_z_half_size :
    ∀ (reward_type : String)
      (distance_threshold goal_xy_range goal_z_range obj_xy_range : ℚ)
      (g : RNG),
      (sampleObject (mkConfig reward_type distance_threshold goal_xy_range
          goal_z_range obj_xy_range) g).1 2
        = (mkConfig reward_type distance_threshold goal_xy_range goal_z_range
            obj_xy_range).objectSize / 2
      ∧ (mkConfig reward_type distance_threshold goal_xy_range goal_z_range
          obj_xy_range).objRangeLow 2 = 0
      ∧ (mkConfig reward_type distance_threshold goal_xy_range goal_z_range
          obj_xy_range).objRangeHigh 2 = 0 := by
  intro rt dt gxy gz oxy g
  refine ⟨?_, by simp [mkConfig], by simp [mkConfig]⟩
  simp [sampleObject, uniform3, mkConfig]

/-- C8: `reset` writes the sampled goal and object pose (identity quaternion
orientation) into the simulator, records the post-placement object z as
`initial_height`, and sets `goal` in the same step; none of the other exposed
operations changes `goal` or `initial_height`. -/
theorem reset_episode_invariant :
    ∀ (s : TaskState) (achieved desired : Point3) (i : Info),
      ((reset s).goal = some (sampleGoal s.cfg s.rng).1
        ∧ (reset s).initialHeight
            = (sampleObject s.cfg (sampleGoal s.cfg s.rng).2).1 2
        ∧ (reset s).sim.objectPos
            = (sampleObject s.cfg (sampleGoal s.cfg s.rng).2).1
        ∧ (reset s).sim.targetPos = (sampleGoal s.cfg s.rng).1
        ∧ (reset s).sim.objectOrn = ![0, 0, 0, 1]
        ∧ (reset s).sim.targetOrn = ![0, 0, 0, 1])
      ∧ ((getObsOp s).2.goal = s.goal
          ∧ (getObsOp s).2.initialHeight = s.initialHeight)
      ∧ ((getAchievedGoalOp s).2.goal = s.goal
          ∧ (getAchievedGoalOp s).2.initialHeight = s.initialHeight)
      ∧ ((getDesiredGoalOp s).2.goal = s.goal
          ∧ (getDesiredGoalOp s).2.initialHeight = s.initialHeight)
      ∧ ((isSuccessOp s achieved desired).2.goal = s.goal
          ∧ (isSuccessOp s achieved desired).2.initialHeight = s.initialHeight)
      ∧ ((computeRewardOp s achieved desired i).2.goal = s.goal
          ∧ (computeRewardOp s achieved desired i).2.initialHeight
              = s.initialHeight) :=
  fun _ _ _ _ =>
    ⟨⟨rfl, rfl, rfl, rfl, rfl, rfl⟩, ⟨rfl, rfl⟩, ⟨rfl, rfl⟩, ⟨rfl, rfl⟩,
      ⟨rfl, rfl⟩, ⟨rfl, rfl⟩⟩

/-- C9: sampling is deterministic in the generator — two identically seeded
generators (same stream, same cursor) produce identical goal/object sequences
over any number of resets — and each sampled goal is the base point
(0, 0.2, 0.15 + half-size) plus the uniform offset, whose z-component is
forced to 0 exactly when the subsequent unit draw falls below 0.3. -/
theorem sampling_deterministic :
    (∀ (cfg : Config) (g₁ g₂ : RNG) (n : Nat),
      g₁.stream = g₂.stream → g₁.cursor = g₂.cursor →
      resetDraws cfg g₁ n = resetDraws cfg g₂ n)
    ∧ (∀ (cfg : Config) (g : RNG) (j : Fin 3),
      (sampleGoal cfg g).1 j
        = ![0, 0.2, 0.15 + cfg.objectSize / 2] j
          + (if g.stream (g.cursor + 3) < 0.3 ∧ j = 2 then 0
             else cfg.goalRangeLow j
               + g.stream (g.cursor + (j : ℕ))
                 * (cfg.goalRangeHigh j - cfg.goalRangeLow j))) := by
  constructor
  · intro cfg g₁ g₂ n hs hc
    obtain ⟨s₁, c₁⟩ := g₁
    obtain ⟨s₂, c₂⟩ := g₂
    cases hs
    cases hc
    rfl
  · intro cfg g j
    simp only [sampleGoal, uniform3, randomUnit]
    by_cases hr : g.stream (g.cursor + 3) < 0.3
    · simp [hr, Function.update_apply]
    · simp [hr]

/-- Witness for C9: two concretely equal generator states produce the same
two-reset sequence. -/
theorem sampling_deterministic_witness :
    resetDraws (mkConfig "sparse" 0.05 0.1 0 0.1) ⟨fun _ => 0, 0⟩ 2
      = resetDraws (mkConfig "sparse" 0.05 0.1 0 0.1) ⟨fun _ => 0, 0⟩ 2 :=
  sampling_deterministic.1 _ _ _ 2 rfl rfl

/-- C10: the reward is independent of the configured reward mode — two task
configurations differing only in the `reward_type` constructor argument give
equal rewards on every input. -/
theorem computeReward_rewardType_independent :
    ∀ (rt₁ rt₂ : String)
      (distance_threshold goal_xy_range goal_z_range obj_xy_range : ℚ)
      (achieved desired : Point3) (i : Info),
      computeReward (mkConfig rt₁ distance_threshold goal_xy_range goal_z_range
          obj_xy_range) achieved desired i
        = computeReward (mkConfig rt₂ distance_threshold goal_xy_range
            goal_z_range obj_xy_range) achieved desired i :=
  fun _ _ _ _ _ _ _ _ _ => rfl

end Grasp
